import Mathlib

/-!
Shallow embedding of the session-authentication and account-lifecycle core of
the `be-cvcover` backend (files `app/db/repositories.py`, `app/db/service.py`,
`app/db/models.py`).

Modelling conventions:
* The relational store is a `DB` record holding the `users`, `user_sessions`
  and `audit_logs` tables as lists in insertion order (SQL autoincrement ids
  are assigned from the `next_*` counters; a `SELECT` without `ORDER BY` is
  modelled as table order, i.e. insertion order).
* `datetime.utcnow()` is an explicit `now : Nat` argument at every operation
  that reads the clock.
* `bcrypt` hashing/verification is nondeterministic-to-produce and opaque, so
  password verification is an explicit function argument
  `verify : String → String → Bool` (the claims under study never depend on
  its behaviour, only on where its result is consulted).
* `secrets.token_urlsafe(32)` is nondeterministic, so the generated session
  token is an explicit argument where a session is created.
* Python exceptions (`ValidationException`, `NotFoundException`) become
  `Except DbError`.
-/

/-- Row of the `users` table (`app/db/models.py`, class `User`). -/
structure User where
  id : Nat
  email : String
  full_name : String
  hashed_password : String
  is_active : Bool
  is_superuser : Bool
deriving Repr, DecidableEq

/-- Row of the `user_sessions` table (`app/db/models.py`, class `UserSession`). -/
structure UserSession where
  id : Nat
  user_id : Nat
  session_token : String
  expires_at : Nat
  is_active : Bool
  ip_address : Option String
  user_agent : Option String
deriving Repr, DecidableEq

/-- Row of the `audit_logs` table (`app/db/models.py`, class `AuditLog`).
Fields mirror the keyword parameters of `AuditLogRepository.log_action`,
all of which default to `None`. -/
structure AuditLog where
  user_id : Option Nat
  action : Option String
  resource_type : Option String
  resource_id : Option String
  details : Option String
  ip_address : Option String
  user_agent : Option String
deriving Repr, DecidableEq

/-- The relational store: the three tables used by the claims, in insertion
order, plus the autoincrement counters for primary keys. -/
structure DB where
  users : List User
  sessions : List UserSession
  audits : List AuditLog
  next_user_id : Nat
  next_session_id : Nat
deriving Repr, DecidableEq

/-- The exceptions raised by the repository layer
(`app/core/exceptions.py`: `ValidationException`, `NotFoundException`). -/
inductive DbError where
  | validationError (msg : String)
  | notFound (msg : String)
deriving Repr, DecidableEq

/-- `UserRepository.get_by_email`: `select(User).where(User.email == email)`,
`scalar_one_or_none`. SQL `=` on the text column is exact (case-sensitive)
comparison under the configured backends. -/
def get_by_email (db : DB) (email : String) : Option User :=
  db.users.find? (fun u => u.email == email)

/-- `BaseRepository.get_by_id` specialised to `User`:
`select(User).where(User.id == record_id)`, `scalar_one_or_none`. -/
def get_by_id (db : DB) (uid : Nat) : Option User :=
  db.users.find? (fun u => u.id == uid)

/-- `UserRepository.get_active_users`:
`select(User).where(User.is_active == True).offset(skip).limit(limit)`. -/
def get_active_users (db : DB) (skip limit : Nat) : List User :=
  ((db.users.filter (fun u => u.is_active)).drop skip).take limit

/-- `UserRepository.create_user`: raises `ValidationException` when
`get_by_email` finds an existing row, otherwise inserts a new `User` with
`is_active=True` (id from the autoincrement counter). -/
def create_user (db : DB) (email full_name hashed_password : String) :
    Except DbError (User × DB) :=
  match get_by_email db email with
  | some _ => .error (.validationError "User with this email already exists")
  | none =>
      let u : User :=
        { id := db.next_user_id, email := email, full_name := full_name,
          hashed_password := hashed_password, is_active := true,
          is_superuser := false }
      .ok (u, { db with users := db.users ++ [u],
                        next_user_id := db.next_user_id + 1 })

/-- One keyword-argument value for `UserRepository.update_user(**kwargs)`. -/
inductive FieldVal where
  | str (s : String)
  | boolVal (b : Bool)
deriving Repr, DecidableEq

/-- The `setattr(user, key, value)` loop body of `UserRepository.update_user`:
a key naming a `User` column is assigned, any other key is skipped
(`hasattr(user, key)` false). The immutable primary key is not reassigned by
any caller and is left out. -/
def setUserField (u : User) (key : String) (v : FieldVal) : User :=
  match key, v with
  | "email", .str s => { u with email := s }
  | "full_name", .str s => { u with full_name := s }
  | "hashed_password", .str s => { u with hashed_password := s }
  | "is_active", .boolVal b => { u with is_active := b }
  | "is_superuser", .boolVal b => { u with is_superuser := b }
  | _, _ => u

/-- `UserRepository.update_user`: raises `NotFoundException` when the id is
absent, otherwise applies each supplied keyword argument in order and writes
the row back. -/
def repo_update_user (db : DB) (uid : Nat) (kwargs : List (String × FieldVal)) :
    Except DbError (User × DB) :=
  match get_by_id db uid with
  | none => .error (.notFound ("User with ID " ++ toString uid ++ " not found"))
  | some user =>
      let user' := kwargs.foldl (fun u kv => setUserField u kv.1 kv.2) user
      .ok (user', { db with
        users := db.users.map (fun v => if v.id == uid then user' else v) })

/-- `UserRepository.deactivate_user`: `update_user(user_id, is_active=False)`. -/
def repo_deactivate_user (db : DB) (uid : Nat) : Except DbError (User × DB) :=
  repo_update_user db uid [("is_active", .boolVal false)]

/-- `UserSessionRepository.get_by_token`: selects the session with
`session_token == token AND is_active == True AND expires_at > utcnow()`. -/
def get_by_token (db : DB) (token : String) (now : Nat) : Option UserSession :=
  db.sessions.find? (fun s =>
    s.session_token == token && s.is_active && decide (now < s.expires_at))

/-- `UserSessionRepository.create_session` (token passed in, see header). -/
def create_session (db : DB) (user_id : Nat) (token : String)
    (expires_at : Nat) (ip_address user_agent : Option String) :
    UserSession × DB :=
  let s : UserSession :=
    { id := db.next_session_id, user_id := user_id, session_token := token,
      expires_at := expires_at, is_active := true,
      ip_address := ip_address, user_agent := user_agent }
  (s, { db with sessions := db.sessions ++ [s],
                next_session_id := db.next_session_id + 1 })

/-- `UserSessionRepository.invalidate_session`: looks the token up through
`get_by_token`; when found, sets that row's `is_active` to `False` and returns
`True`, otherwise returns `False`. -/
def invalidate_session (db : DB) (token : String) (now : Nat) : Bool × DB :=
  match get_by_token db token now with
  | some s =>
      (true, { db with sessions := db.sessions.map (fun t =>
        if t.id == s.id then { t with is_active := false } else t) })
  | none => (false, db)

/-- `AuditLogRepository.log_action`: append-only insert of one audit row. -/
def log_action (db : DB) (user_id : Option Nat)
    (action resource_type resource_id details ip_address user_agent :
      Option String) : AuditLog × DB :=
  let a : AuditLog :=
    { user_id := user_id, action := action, resource_type := resource_type,
      resource_id := resource_id, details := details,
      ip_address := ip_address, user_agent := user_agent }
  (a, { db with audits := db.audits ++ [a] })

/-- 24 hours (`timedelta(hours=24)`) in seconds. -/
def hours24 : Nat := 86400

/-- `UserService.authenticate_user`: `None` when the email is absent, the
account inactive, or the password fails verification; the account otherwise. -/
def authenticate_user (verify : String → String → Bool) (db : DB)
    (email password : String) : Option User :=
  match get_by_email db email with
  | none => none
  | some user =>
      if !user.is_active then none
      else if !(verify password user.hashed_password) then none
      else some user

/-- `UserService.create_user_session`: creates a session expiring in 24 hours
and records a `"user_login"` audit entry with the actor id. -/
def create_user_session (db : DB) (user : User) (token : String) (now : Nat)
    (ip_address user_agent : Option String) : UserSession × DB :=
  let p := create_session db user.id token (now + hours24) ip_address user_agent
  let q := log_action p.2 (some user.id) (some "user_login") (some "session")
    (some (toString p.1.id)) none ip_address user_agent
  (p.1, q.2)

/-- `UserService.get_user_by_session`: resolves the token through
`get_by_token`, then looks the owning account up by id (no active filter). -/
def get_user_by_session (db : DB) (token : String) (now : Nat) : Option User :=
  match get_by_token db token now with
  | none => none
  | some s => get_by_id db s.user_id

/-- `UserService.logout_user`: resolves the session; when absent returns
`False`; when present records `"user_logout"` with the owning account id, then
invalidates the session and returns the invalidation result. -/
def logout_user (db : DB) (token : String) (now : Nat) : Bool × DB :=
  match get_by_token db token now with
  | none => (false, db)
  | some s =>
      let p := log_action db (some s.user_id) (some "user_logout")
        (some "session") (some (toString s.id)) none none none
      invalidate_session p.2 token now

/-- `UserService.update_user`: delegates to the repository, then records
`"user_updated"` whose detail joins the supplied keyword names with `", "`
(`f"Updated fields: \x7b', '.join(kwargs.keys())\x7d"`). -/
def update_user (db : DB) (uid : Nat) (kwargs : List (String × FieldVal)) :
    Except DbError (User × DB) :=
  match repo_update_user db uid kwargs with
  | .error e => .error e
  | .ok r =>
      let detail := "Updated fields: " ++
        String.intercalate ", " (kwargs.map Prod.fst)
      let q := log_action r.2 (some uid) (some "user_updated") (some "user")
        (some (toString uid)) (some detail) none none
      .ok (r.1, q.2)

/-- `UserService.deactivate_user`: delegates to the repository (which raises
`NotFoundException` on a missing id), records `"user_deactivated"` and returns
`True`. -/
def deactivate_user (db : DB) (uid : Nat) : Except DbError (Bool × DB) :=
  match repo_deactivate_user db uid with
  | .error e => .error e
  | .ok r =>
      let q := log_action r.2 (some uid) (some "user_deactivated") (some "user")
        (some (toString uid)) none none none
      .ok (true, q.2)

/-- `AuthService.login`: on credential failure records `"login_failed"` with
no actor id and detail `f"Failed login attempt for email: \x7bemail\x7d"` and
returns `None`; on success creates the session (24-hour expiry) and the
`"user_login"` audit entry. -/
def login (verify : String → String → Bool) (db : DB)
    (email password token : String) (now : Nat)
    (ip_address user_agent : Option String) : Option UserSession × DB :=
  match authenticate_user verify db email password with
  | none =>
      let p := log_action db none (some "login_failed") none none
        (some ("Failed login attempt for email: " ++ email))
        ip_address user_agent
      (none, p.2)
  | some user =>
      let p := create_user_session db user token now ip_address user_agent
      (some p.1, p.2)

/-- `AuthService.refresh_session`: resolves the token through `get_by_token`;
when absent returns `None`; when present sets the row's expiry to
`utcnow() + 24h` and returns the updated session. -/
def refresh_session (db : DB) (token : String) (now : Nat) :
    Option UserSession × DB :=
  match get_by_token db token now with
  | none => (none, db)
  | some s =>
      (some { s with expires_at := now + hours24 },
       { db with sessions := db.sessions.map (fun t =>
          if t.id == s.id then { t with expires_at := now + hours24 } else t) })

/-- Uniqueness invariants the schema enforces on `user_sessions`
(`id` primary key, `session_token` UNIQUE). -/
def sessionsWF (db : DB) : Prop :=
  (db.sessions.map (fun s => s.id)).Nodup ∧
  (db.sessions.map (fun s => s.session_token)).Nodup

instance : DecidablePred sessionsWF := fun db => by
  unfold sessionsWF; infer_instance

/-- Uniqueness invariants the schema enforces on `users`
(`id` primary key, `email` UNIQUE). -/
def usersWF (db : DB) : Prop :=
  (db.users.map (fun u => u.id)).Nodup ∧
  (db.users.map (fun u => u.email)).Nodup

instance : DecidablePred usersWF := fun db => by
  unfold usersWF; infer_instance

/-! ### Claim C1 -/

/-- C1: `get_by_token` returns a session only if its `is_active` flag is true,
its `session_token` is the queried token, and its expiry is strictly later
than the current time; and whenever every stored session carrying the token is
inactive or expired, the lookup returns `none` — the very value an unknown
token yields — rather than a distinct error. -/
theorem C1_get_valid_by_token (db : DB) (token : String) (now : Nat) :
    (∀ s, get_by_token db token now = some s →
      s.session_token = token ∧ s.is_active = true ∧ now < s.expires_at) ∧
    ((∀ s ∈ db.sessions, s.session_token = token →
        s.is_active = false ∨ s.expires_at ≤ now) →
      get_by_token db token now = none) := by
  constructor
  · intro s hs
    have h := List.find?_some hs
    simp only [Bool.and_eq_true, beq_iff_eq, decide_eq_true_eq] at h
    exact ⟨h.1.1, h.1.2, h.2⟩
  · intro h
    unfold get_by_token
    rw [List.find?_eq_none]
    intro s hs
    simp only [Bool.and_eq_true, beq_iff_eq, decide_eq_true_eq, not_and]
    rintro ⟨htok, hact⟩
    rcases h s hs htok with h1 | h1
    · rw [hact] at h1; simp at h1
    · omega

/-- Sessions table with one inactive session and one expired session holding
distinct tokens, for the C1 witness. -/
def dbC1 : DB :=
  { users := [],
    sessions :=
      [{ id := 1, user_id := 1, session_token := "tok-inactive",
         expires_at := 100, is_active := false,
         ip_address := none, user_agent := none },
       { id := 2, user_id := 1, session_token := "tok-expired",
         expires_at := 5, is_active := true,
         ip_address := none, user_agent := none }],
    audits := [], next_user_id := 1, next_session_id := 3 }

/-- Witness for C1 at a concrete store: the inactivated token and the expired
token both resolve to `none`, as does a token never issued. -/
theorem C1_get_valid_by_token_witness :
    get_by_token dbC1 "tok-inactive" 10 = none ∧
    get_by_token dbC1 "tok-expired" 10 = none ∧
    get_by_token dbC1 "tok-unknown" 10 = none :=
  ⟨(C1_get_valid_by_token dbC1 "tok-inactive" 10).2 (by decide),
   (C1_get_valid_by_token dbC1 "tok-expired" 10).2 (by decide),
   (C1_get_valid_by_token dbC1 "tok-unknown" 10).2 (by decide)⟩

/-! ### Claim C2 -/

/-- C2: `authenticate_user` returns `none` in each of the three failure
cases — no account with the email, account present but inactive, password
fails verification — and the returned value is the selfsame `none` in all
three, so the result does not distinguish them. -/
theorem C2_authenticate_indistinguishable (verify : String → String → Bool)
    (db : DB) (email password : String) :
    (get_by_email db email = none →
      authenticate_user verify db email password = none) ∧
    (∀ u, get_by_email db email = some u → u.is_active = false →
      authenticate_user verify db email password = none) ∧
    (∀ u, get_by_email db email = some u →
      verify password u.hashed_password = false →
      authenticate_user verify db email password = none) := by
  refine ⟨fun h => ?_, fun u h hu => ?_, fun u h hv => ?_⟩ <;>
    unfold authenticate_user <;> rw [h]
  · simp [hu]
  · cases hact : u.is_active <;> simp [hact, hv]

/-- Accounts table for the C2 witness: an active account and an inactive one. -/
def dbC2 : DB :=
  { users :=
      [{ id := 1, email := "a@x.com", full_name := "A", hashed_password := "h1",
         is_active := true, is_superuser := false },
       { id := 2, email := "b@x.com", full_name := "B", hashed_password := "h2",
         is_active := false, is_superuser := false }],
    sessions := [], audits := [], next_user_id := 3, next_session_id := 1 }

/-- Witness for C2 at a concrete store: unknown email, inactive account and
wrong password all yield the identical `none`. -/
theorem C2_authenticate_indistinguishable_witness :
    authenticate_user (fun _ _ => true) dbC2 "c@x.com" "pw" = none ∧
    authenticate_user (fun _ _ => true) dbC2 "b@x.com" "pw" = none ∧
    authenticate_user (fun _ _ => false) dbC2 "a@x.com" "pw" = none :=
  ⟨(C2_authenticate_indistinguishable (fun _ _ => true) dbC2 "c@x.com" "pw").1
      (by decide),
   (C2_authenticate_indistinguishable (fun _ _ => true) dbC2 "b@x.com" "pw").2.1
      { id := 2, email := "b@x.com", full_name := "B", hashed_password := "h2",
        is_active := false, is_superuser := false } (by decide) (by decide),
   (C2_authenticate_indistinguishable (fun _ _ => false) dbC2 "a@x.com" "pw").2.2
      { id := 1, email := "a@x.com", full_name := "A", hashed_password := "h1",
        is_active := true, is_superuser := false } (by decide) rfl⟩

/-! ### Claim C8 -/

/-- C8: `get_active_users` returns only accounts whose `is_active` flag is
true, and the returned sequence is a sublist of the stored table — hence in
insertion order; in particular, when the table is sorted by id, so is the
result. -/
theorem C8_get_active_users_ordered (db : DB) (skip limit : Nat) :
    (∀ u ∈ get_active_users db skip limit, u.is_active = true) ∧
    (get_active_users db skip limit).Sublist db.users ∧
    (List.Sorted (fun a b : User => a.id ≤ b.id) db.users →
      List.Sorted (fun a b : User => a.id ≤ b.id)
        (get_active_users db skip limit)) := by
  have hsub : (get_active_users db skip limit).Sublist db.users := by
    unfold get_active_users
    exact ((List.take_sublist _ _).trans (List.drop_sublist _ _)).trans
      (List.filter_sublist _)
  refine ⟨?_, hsub, ?_⟩
  · intro u hu
    have h1 := List.mem_of_mem_take hu
    have h2 := List.mem_of_mem_drop h1
    simpa using List.of_mem_filter h2
  · intro h
    exact List.Pairwise.sublist hsub h

/-- Accounts table for the C8 witness: ids in insertion order with an
inactive account interleaved. -/
def dbC8 : DB :=
  { users :=
      [{ id := 1, email := "a@x.com", full_name := "A", hashed_password := "h1",
         is_active := true, is_superuser := false },
       { id := 2, email := "b@x.com", full_name := "B", hashed_password := "h2",
         is_active := false, is_superuser := false },
       { id := 3, email := "c@x.com", full_name := "C", hashed_password := "h3",
         is_active := true, is_superuser := false }],
    sessions := [], audits := [], next_user_id := 4, next_session_id := 1 }

/-- Witness for C8 at a concrete store: the id-sorted table yields an
id-sorted active listing, and its first element is active. -/
theorem C8_get_active_users_ordered_witness :
    List.Sorted (fun a b : User => a.id ≤ b.id) (get_active_users dbC8 0 10) ∧
    ∀ u ∈ get_active_users dbC8 0 10, u.is_active = true :=
  ⟨(C8_get_active_users_ordered dbC8 0 10).2.2 (by decide),
   (C8_get_active_users_ordered dbC8 0 10).1⟩

/-! ### Claim C10 -/

/-- C10: when a token's session is active and unexpired but the owning
account has `is_active = false`, `get_user_by_session` still returns that
account: the id lookup applies no active-flag filter, so deactivation does
not hide the account from resolution through its existing valid sessions. -/
theorem C10_session_resolves_deactivated_account (db : DB) (token : String)
    (now : Nat) (s : UserSession) (u : User)
    (h1 : get_by_token db token now = some s)
    (h2 : get_by_id db s.user_id = some u)
    (h3 : u.is_active = false) :
    get_user_by_session db token now = some u := by
  unfold get_user_by_session
  rw [h1]
  exact h2

/-- Store for the C10 witness: a deactivated account owning a still-valid
session. -/
def dbC10 : DB :=
  { users :=
      [{ id := 1, email := "a@x.com", full_name := "A", hashed_password := "h1",
         is_active := false, is_superuser := false }],
    sessions :=
      [{ id := 1, user_id := 1, session_token := "tok", expires_at := 100,
         is_active := true, ip_address := none, user_agent := none }],
    audits := [], next_user_id := 2, next_session_id := 2 }

/-- Witness for C10 at a concrete store: the valid session of the
deactivated account still resolves to that account. -/
theorem C10_session_resolves_deactivated_account_witness :
    get_user_by_session dbC10 "tok" 10 =
      some { id := 1, email := "a@x.com", full_name := "A",
             hashed_password := "h1", is_active := false,
             is_superuser := false } :=
  C10_session_resolves_deactivated_account dbC10 "tok" 10
    { id := 1, user_id := 1, session_token := "tok", expires_at := 100,
      is_active := true, ip_address := none, user_agent := none }
    { id := 1, email := "a@x.com", full_name := "A", hashed_password := "h1",
      is_active := false, is_superuser := false }
    (by decide) (by decide) rfl

/-! ### Claim C4 -/

/-- A `find?` over a mapped list misses when the predicate fails on every
image. -/
theorem find?_map_eq_none {α : Type} (l : List α) (f : α → α) (p : α → Bool)
    (h : ∀ x ∈ l, p (f x) = false) : (l.map f).find? p = none := by
  rw [List.find?_eq_none]
  intro y hy
  rcases List.mem_map.mp hy with ⟨x, hx, rfl⟩
  simp [h x hx]

/-- C4: invalidation is terminal. When `invalidate_session` succeeds on a
token (over a store satisfying the schema's uniqueness constraints), every
subsequent `get_by_token` on that token returns `none` at every later (indeed
any) clock reading, a subsequent `refresh_session` on the same token returns
`none`, and the lookup still returns `none` after that refresh attempt: the
refresh does not reactivate the session. -/
theorem C4_invalidation_terminal (db : DB) (token : String)
    (now now2 now3 : Nat) (hwf : sessionsWF db)
    (h : (invalidate_session db token now).1 = true) :
    get_by_token (invalidate_session db token now).2 token now2 = none ∧
    (refresh_session (invalidate_session db token now).2 token now2).1 = none ∧
    get_by_token
      (refresh_session (invalidate_session db token now).2 token now2).2
      token now3 = none := by
  rcases hfind : get_by_token db token now with _ | s
  · unfold invalidate_session at h
    rw [hfind] at h
    simp at h
  · have hs_mem : s ∈ db.sessions := List.mem_of_find?_eq_some hfind
    have hs_prop := List.find?_some hfind
    simp only [Bool.and_eq_true, beq_iff_eq, decide_eq_true_eq] at hs_prop
    have hdb2 : (invalidate_session db token now).2 =
        { db with sessions := db.sessions.map (fun t =>
          if t.id == s.id then { t with is_active := false } else t) } := by
      unfold invalidate_session
      rw [hfind]
    have hnone : ∀ m : Nat,
        get_by_token (invalidate_session db token now).2 token m = none := by
      intro m
      rw [hdb2]
      unfold get_by_token
      apply find?_map_eq_none
      intro t ht
      by_cases hid : (t.id == s.id) = true
      · rw [if_pos hid]
        simp
      · rw [if_neg hid]
        by_cases htok : t.session_token = token
        · exfalso
          apply hid
          have heq : t = s := List.inj_on_of_nodup_map hwf.2 ht hs_mem
            (by rw [htok, hs_prop.1.1])
          rw [heq]
          simp
        · simp [htok]
    refine ⟨hnone now2, ?_, ?_⟩
    · unfold refresh_session
      rw [hnone now2]
    · unfold refresh_session
      rw [hnone now2]
      exact hnone now3

/-- Store for the C4 witness: one active, unexpired session. -/
def dbC4 : DB :=
  { users := [],
    sessions :=
      [{ id := 1, user_id := 1, session_token := "tok", expires_at := 100,
         is_active := true, ip_address := none, user_agent := none }],
    audits := [], next_user_id := 1, next_session_id := 2 }

/-- Witness for C4 at a concrete store: after a successful invalidation the
token no longer resolves, refresh returns `none`, and the token still does
not resolve after the refresh attempt. -/
theorem C4_invalidation_terminal_witness :
    get_by_token (invalidate_session dbC4 "tok" 0).2 "tok" 10 = none ∧
    (refresh_session (invalidate_session dbC4 "tok" 0).2 "tok" 10).1 = none ∧
    get_by_token
      (refresh_session (invalidate_session dbC4 "tok" 0).2 "tok" 10).2
      "tok" 20 = none :=
  C4_invalidation_terminal dbC4 "tok" 0 10 20 (by decide) (by decide)

/-! ### Claim C6 -/

/-- C6: `logout_user` resolves the session first. With no valid session it
returns `false` and leaves the store — audit log included — untouched. With a
valid session it returns `true` (the invalidation result), appends exactly
one `"user_logout"` audit entry carrying the session's owning account id
(recorded before the invalidation), and invalidates the session: in the
post-state the resolved session's row has its `is_active` flag cleared,
every other row unchanged. -/
theorem C6_logout_audits_then_invalidates (db : DB) (token : String)
    (now : Nat) :
    (get_by_token db token now = none →
      logout_user db token now = (false, db)) ∧
    (∀ s, get_by_token db token now = some s →
      (logout_user db token now).1 = true ∧
      (logout_user db token now).2.audits = db.audits ++
        [{ user_id := some s.user_id, action := some "user_logout",
           resource_type := some "session",
           resource_id := some (toString s.id), details := none,
           ip_address := none, user_agent := none }] ∧
      (logout_user db token now).2.sessions = db.sessions.map (fun t =>
        if t.id == s.id then { t with is_active := false } else t)) := by
  constructor
  · intro h
    unfold logout_user
    rw [h]
  · intro s hs
    have key : logout_user db token now =
        invalidate_session ((log_action db (some s.user_id)
          (some "user_logout") (some "session") (some (toString s.id))
          none none none).2) token now := by
      unfold logout_user
      rw [hs]
    have h1 : get_by_token ((log_action db (some s.user_id)
        (some "user_logout") (some "session") (some (toString s.id))
        none none none).2) token now = some s := hs
    rw [key]
    unfold invalidate_session
    rw [h1]
    exact ⟨rfl, rfl, rfl⟩

/-- Store for the C6 witness: one account owning one valid session, empty
audit log. -/
def dbC6 : DB :=
  { users :=
      [{ id := 7, email := "a@x.com", full_name := "A", hashed_password := "h1",
         is_active := true, is_superuser := false }],
    sessions :=
      [{ id := 3, user_id := 7, session_token := "tok", expires_at := 100,
         is_active := true, ip_address := none, user_agent := none }],
    audits := [], next_user_id := 8, next_session_id := 4 }

/-- Witness for C6 at a concrete store: an unknown token logs out to
`(false, unchanged store)`; the valid token yields `true`, exactly one
`"user_logout"` entry with the owning account id 7, and the session row
deactivated in the post-state. -/
theorem C6_logout_audits_then_invalidates_witness :
    logout_user dbC6 "nope" 10 = (false, dbC6) ∧
    (logout_user dbC6 "tok" 10).1 = true ∧
    (logout_user dbC6 "tok" 10).2.audits =
      [{ user_id := some 7, action := some "user_logout",
         resource_type := some "session", resource_id := some (toString (3 : Nat)),
         details := none, ip_address := none, user_agent := none }] ∧
    (logout_user dbC6 "tok" 10).2.sessions =
      [{ id := 3, user_id := 7, session_token := "tok", expires_at := 100,
         is_active := false, ip_address := none, user_agent := none }] :=
  ⟨(C6_logout_audits_then_invalidates dbC6 "nope" 10).1 (by decide),
   ((C6_logout_audits_then_invalidates dbC6 "tok" 10).2
      { id := 3, user_id := 7, session_token := "tok", expires_at := 100,
        is_active := true, ip_address := none, user_agent := none }
      (by decide)).1,
   ((C6_logout_audits_then_invalidates dbC6 "tok" 10).2
      { id := 3, user_id := 7, session_token := "tok", expires_at := 100,
        is_active := true, ip_address := none, user_agent := none }
      (by decide)).2.1,
   ((C6_logout_audits_then_invalidates dbC6 "tok" 10).2
      { id := 3, user_id := 7, session_token := "tok", expires_at := 100,
        is_active := true, ip_address := none, user_agent := none }
      (by decide)).2.2⟩

/-! ### Claim C5 -/

/-- Empty store for the C5 counterexample. -/
def dbC5 : DB :=
  { users := [], sessions := [], audits := [],
    next_user_id := 1, next_session_id := 1 }

/-- C5 counterexample: a failed login at a concrete input records the single
`"login_failed"` entry with null actor, but its plain-text detail DOES
contain the attempted email — the detail decomposes as
`"Failed login attempt for email: " ++ "alice@x.com" ++ ""` — contradicting
the claim that the detail does not contain the attempted email. -/
theorem C5_counterexample :
    (login (fun _ _ => false) dbC5 "alice@x.com" "pw" "tok" 0 none none).2.audits
      = [{ user_id := none, action := some "login_failed",
           resource_type := none, resource_id := none,
           details := some ("Failed login attempt for email: " ++ "alice@x.com"),
           ip_address := none, user_agent := none }] ∧
    ∃ pre post, ("Failed login attempt for email: " ++ "alice@x.com") =
      pre ++ "alice@x.com" ++ post :=
  ⟨rfl, "Failed login attempt for email: ", "", rfl⟩

/-- C5 (amended): on every failed credential check, `login` records exactly
one `"login_failed"` audit entry whose actor account id is null and whose
plain-text detail is `"Failed login attempt for email: " ++ email` — so the
detail does contain the attempted email — and returns `none` without creating
any session. -/
theorem C5_login_failed_audit (verify : String → String → Bool) (db : DB)
    (email password token : String) (now : Nat) (ip ua : Option String)
    (h : authenticate_user verify db email password = none) :
    (login verify db email password token now ip ua).1 = none ∧
    (login verify db email password token now ip ua).2.sessions =
      db.sessions ∧
    (login verify db email password token now ip ua).2.audits = db.audits ++
      [{ user_id := none, action := some "login_failed",
         resource_type := none, resource_id := none,
         details := some ("Failed login attempt for email: " ++ email),
         ip_address := ip, user_agent := ua }] := by
  unfold login
  rw [h]
  exact ⟨rfl, rfl, rfl⟩

/-- Store for the C5 witness: one active account whose password will not
verify. -/
def dbC5w : DB :=
  { users :=
      [{ id := 1, email := "bob@x.com", full_name := "B", hashed_password := "h1",
         is_active := true, is_superuser := false }],
    sessions := [], audits := [], next_user_id := 2, next_session_id := 1 }

/-- Witness for the amended C5 at a concrete store: a wrong-password login
returns `none`, creates no session, and appends the one `"login_failed"`
entry with null actor and the email inside the detail. -/
theorem C5_login_failed_audit_witness :
    (login (fun _ _ => false) dbC5w "bob@x.com" "pw" "tok" 0 none none).1 =
      none ∧
    (login (fun _ _ => false) dbC5w "bob@x.com" "pw" "tok" 0 none none).2.sessions
      = dbC5w.sessions ∧
    (login (fun _ _ => false) dbC5w "bob@x.com" "pw" "tok" 0 none none).2.audits
      = dbC5w.audits ++
      [{ user_id := none, action := some "login_failed",
         resource_type := none, resource_id := none,
         details := some ("Failed login attempt for email: " ++ "bob@x.com"),
         ip_address := none, user_agent := none }] :=
  C5_login_failed_audit (fun _ _ => false) dbC5w "bob@x.com" "pw" "tok" 0
    none none (by decide)

/-! ### Claim C3 -/

/-- Store for the C3 counterexample: one account with email "alice@x.com". -/
def dbC3 : DB :=
  { users :=
      [{ id := 1, email := "alice@x.com", full_name := "A",
         hashed_password := "h1", is_active := true, is_superuser := false }],
    sessions := [], audits := [], next_user_id := 2, next_session_id := 1 }

/-- C3 counterexample: "Alice@x.com" equals the stored "alice@x.com" up to
case, yet `create_user` succeeds instead of failing with the duplicate-email
error: the email comparison in the duplicate check is exact, not
case-insensitive. -/
theorem C3_counterexample :
    "Alice@x.com".data.map Char.toLower = "alice@x.com".data.map Char.toLower ∧
    "Alice@x.com" ≠ "alice@x.com" ∧
    (create_user dbC3 "Alice@x.com" "A2" "h2").isOk = true := by
  refine ⟨by decide, by decide, by decide⟩

/-- C3 (amended): `create_user` fails with the duplicate-email
`ValidationException` exactly when an account whose email is the identical
string (exact, case-sensitive comparison) already exists — whether that
account is active or inactive. -/
theorem C3_duplicate_email_exact (db : DB)
    (email full_name hashed_password : String) :
    (∃ u ∈ db.users, u.email = email) ↔
    create_user db email full_name hashed_password =
      .error (.validationError "User with this email already exists") := by
  unfold create_user get_by_email
  constructor
  · rintro ⟨u, hu, rfl⟩
    have hsome : (db.users.find? (fun v => v.email == u.email)).isSome := by
      rw [List.find?_isSome]
      exact ⟨u, hu, by simp⟩
    rcases hfind : db.users.find? (fun v => v.email == u.email) with _ | w
    · rw [hfind] at hsome
      simp at hsome
    · rw [hfind]
  · intro h
    rcases hfind : db.users.find? (fun v => v.email == email) with _ | w
    · rw [hfind] at h
      simp at h
    · have hw := List.find?_some hfind
      exact ⟨w, List.mem_of_find?_eq_some hfind, by simpa using hw⟩

/-- Store for the C3 witness: an inactive account holding "bob@x.com". -/
def dbC3w : DB :=
  { users :=
      [{ id := 1, email := "bob@x.com", full_name := "B",
         hashed_password := "h1", is_active := false, is_superuser := false }],
    sessions := [], audits := [], next_user_id := 2, next_session_id := 1 }

/-- Witness for the amended C3 at a concrete store: re-registering the exact
email of an inactive account fails with the duplicate-email error —
uniqueness holds across inactive accounts too. -/
theorem C3_duplicate_email_exact_witness :
    create_user dbC3w "bob@x.com" "B2" "h2" =
      .error (.validationError "User with this email already exists") :=
  (C3_duplicate_email_exact dbC3w "bob@x.com" "B2" "h2").mp
    ⟨{ id := 1, email := "bob@x.com", full_name := "B",
       hashed_password := "h1", is_active := false, is_superuser := false },
     by decide, rfl⟩

/-! ### Claim C9 -/

/-- Store for the C9 counterexample and witness: one account with id 1. -/
def dbC9 : DB :=
  { users :=
      [{ id := 1, email := "a@x.com", full_name := "A", hashed_password := "h1",
         is_active := true, is_superuser := false }],
    sessions := [], audits := [], next_user_id := 2, next_session_id := 1 }

/-- C9 counterexample: two updates of the same account supplying the same
SET of field names (even with the same values), but in a different keyword
order, produce different audit detail text — `kwargs.keys()` is joined in
call order, so equality of the name set does not give identical detail. -/
theorem C9_counterexample :
    (["email", "full_name"] : List String).Perm ["full_name", "email"] ∧
    (update_user dbC9 1
        [("email", FieldVal.str "v1"), ("full_name", FieldVal.str "v2")]).map
        (fun r => r.2.audits.map (fun a => a.details))
      = Except.ok [some "Updated fields: email, full_name"] ∧
    (update_user dbC9 1
        [("full_name", FieldVal.str "v2"), ("email", FieldVal.str "v1")]).map
        (fun r => r.2.audits.map (fun a => a.details))
      = Except.ok [some "Updated fields: full_name, email"] ∧
    ("Updated fields: email, full_name" : String) ≠
      "Updated fields: full_name, email" := by
  exact ⟨by decide, by rfl, by rfl, by decide⟩

/-- C9 (amended): the audit detail of a successful `update_user` is
determined by the sequence of supplied field names alone — the values never
enter it — so any two successful updates supplying the same field names in
the same order, with arbitrarily different values (and even on different
accounts and stores), produce identical audit detail text. Equality of the
name sequence, not merely of the name set, is required (see the
counterexample). -/
theorem C9_audit_detail_names_only (db1 db2 : DB) (uid1 uid2 : Nat)
    (kw1 kw2 : List (String × FieldVal)) (r1 r2 : User × DB)
    (hkeys : kw1.map Prod.fst = kw2.map Prod.fst)
    (h1 : update_user db1 uid1 kw1 = .ok r1)
    (h2 : update_user db2 uid2 kw2 = .ok r2) :
    r1.2.audits.getLast?.bind (fun a => a.details) =
      some ("Updated fields: " ++
        String.intercalate ", " (kw1.map Prod.fst)) ∧
    r2.2.audits.getLast?.bind (fun a => a.details) =
      r1.2.audits.getLast?.bind (fun a => a.details) := by
  have key : ∀ (db : DB) (uid : Nat) (kw : List (String × FieldVal))
      (r : User × DB), update_user db uid kw = .ok r →
      r.2.audits.getLast?.bind (fun a => a.details) =
        some ("Updated fields: " ++
          String.intercalate ", " (kw.map Prod.fst)) := by
    intro db uid kw r h
    unfold update_user at h
    rcases hrepo : repo_update_user db uid kw with e | p
    · rw [hrepo] at h
      cases h
    · rw [hrepo] at h
      injection h with h
      rw [← h]
      show (p.2.audits ++ [_]).getLast?.bind _ = _
      rw [List.getLast?_concat]
      rfl
  refine ⟨key db1 uid1 kw1 r1 h1, ?_⟩
  rw [key db2 uid2 kw2 r2 h2, key db1 uid1 kw1 r1 h1, hkeys]

/-- The audit entry both C9-witness updates produce. -/
def auditC9 : AuditLog :=
  { user_id := some 1, action := some "user_updated",
    resource_type := some "user", resource_id := some "1",
    details := some "Updated fields: email, full_name",
    ip_address := none, user_agent := none }

/-- Result store of the first C9-witness update (values "v1"/"v2"). -/
def dbC9a : DB :=
  { users :=
      [{ id := 1, email := "v1", full_name := "v2", hashed_password := "h1",
         is_active := true, is_superuser := false }],
    sessions := [], audits := [auditC9],
    next_user_id := 2, next_session_id := 1 }

/-- Result store of the second C9-witness update (values "zz"/"ww"). -/
def dbC9b : DB :=
  { users :=
      [{ id := 1, email := "zz", full_name := "ww", hashed_password := "h1",
         is_active := true, is_superuser := false }],
    sessions := [], audits := [auditC9],
    next_user_id := 2, next_session_id := 1 }

/-- Witness for the amended C9 at concrete inputs: two updates with the same
field-name sequence and entirely different values yield the identical audit
detail. -/
theorem C9_audit_detail_names_only_witness :
    dbC9a.audits.getLast?.bind (fun a => a.details) =
      some ("Updated fields: " ++
        String.intercalate ", " ["email", "full_name"]) ∧
    dbC9b.audits.getLast?.bind (fun a => a.details) =
      dbC9a.audits.getLast?.bind (fun a => a.details) :=
  C9_audit_detail_names_only dbC9 dbC9 1 1
    [("email", FieldVal.str "v1"), ("full_name", FieldVal.str "v2")]
    [("email", FieldVal.str "zz"), ("full_name", FieldVal.str "ww")]
    ({ id := 1, email := "v1", full_name := "v2", hashed_password := "h1",
       is_active := true, is_superuser := false }, dbC9a)
    ({ id := 1, email := "zz", full_name := "ww", hashed_password := "h1",
       is_active := true, is_superuser := false }, dbC9b)
    rfl (by rfl) (by rfl)

/-! ### Claim C7 -/

/-- `find?` commutes with an in-place `map` whose images satisfy the
predicate exactly when their sources do. -/
theorem find?_map_comm {α : Type} (l : List α) (f : α → α) (p : α → Bool)
    (h : ∀ x ∈ l, p (f x) = p x) :
    (l.map f).find? p = (l.find? p).map f := by
  induction l with
  | nil => rfl
  | cons a t ih =>
    have ha : p (f a) = p a := h a (List.mem_cons_self a t)
    rw [List.map_cons]
    cases hpa : p a
    · rw [List.find?_cons_of_neg _ (by simp [ha, hpa]),
        List.find?_cons_of_neg _ (by simp [hpa])]
      exact ih (fun x hx => h x (List.mem_cons_of_mem a hx))
    · rw [List.find?_cons_of_pos _ (by simp [ha, hpa]),
        List.find?_cons_of_pos _ (by simp [hpa])]
      rfl

/-- The audit entry recorded by `UserService.deactivate_user` for id `uid`. -/
def deactivation_audit (uid : Nat) : AuditLog :=
  { user_id := some uid, action := some "user_deactivated",
    resource_type := some "user", resource_id := some (toString uid),
    details := none, ip_address := none, user_agent := none }

/-- The store `UserService.deactivate_user` leaves behind when `u` is the
row found for id `uid`: that row's `is_active` cleared, one
`"user_deactivated"` audit entry appended, everything else untouched. -/
def deactivated_db (db : DB) (uid : Nat) (u : User) : DB :=
  { users := db.users.map (fun v =>
      if v.id == uid then { u with is_active := false } else v),
    sessions := db.sessions,
    audits := db.audits ++ [deactivation_audit uid],
    next_user_id := db.next_user_id,
    next_session_id := db.next_session_id }

/-- Characterisation of a successful `deactivate_user`. -/
theorem deactivate_user_ok (db : DB) (uid : Nat) (u : User)
    (hu : get_by_id db uid = some u) :
    deactivate_user db uid = .ok (true, deactivated_db db uid u) := by
  unfold deactivate_user repo_deactivate_user repo_update_user
  rw [hu]
  rfl

/-- After deactivation the id lookup still returns the account, now with
`is_active = false`. -/
theorem deactivated_get_by_id (db : DB) (uid : Nat) (u : User)
    (hu : get_by_id db uid = some u) :
    get_by_id (deactivated_db db uid u) uid =
      some { u with is_active := false } := by
  have huid : (u.id == uid) = true := by simpa using List.find?_some hu
  have huid' : u.id = uid := by simpa using huid
  have e1 : get_by_id (deactivated_db db uid u) uid
      = (db.users.map (fun v =>
          if v.id == uid then { u with is_active := false } else v)).find?
          (fun v => v.id == uid) := rfl
  have hp : ∀ v ∈ db.users,
      (((if v.id == uid then { u with is_active := false } else v)).id == uid)
        = (v.id == uid) := by
    intro v hv
    by_cases hid : (v.id == uid) = true
    · simp [hid, huid]
    · simp [hid]
  have e2 : db.users.find? (fun v => v.id == uid) = some u := hu
  rw [e1, find?_map_comm db.users _ _ hp, e2]
  simp [huid']

/-- After deactivation, authentication with the account's email fails for
every password and every verifier: the email now resolves to an inactive
row. Uses the schema's uniqueness of ids and emails. -/
theorem deactivated_authenticate_none (verify : String → String → Bool)
    (db : DB) (uid : Nat) (u : User) (hwf : usersWF db)
    (hu : get_by_id db uid = some u) (pw : String) :
    authenticate_user verify (deactivated_db db uid u) u.email pw = none := by
  have huid : (u.id == uid) = true := by simpa using List.find?_some hu
  have huid' : u.id = uid := by simpa using huid
  have hu_mem : u ∈ db.users := List.mem_of_find?_eq_some hu
  have hpe : ∀ v ∈ db.users,
      (((if v.id == uid then { u with is_active := false } else v)).email ==
        u.email) = (v.email == u.email) := by
    intro v hv
    by_cases hid : (v.id == uid) = true
    · have hveq : v = u := List.inj_on_of_nodup_map hwf.1 hv hu_mem
        (by
          have h1 : v.id = uid := by simpa using hid
          have h2 : u.id = uid := by simpa using huid
          rw [h1, h2])
      simp [hid, hveq, huid']
    · simp [hid]
  have hmail : db.users.find? (fun v => v.email == u.email) = some u := by
    rcases hfind : db.users.find? (fun v => v.email == u.email) with _ | w
    · exact absurd (by simp : (u.email == u.email) = true)
        ((List.find?_eq_none.mp hfind) u hu_mem)
    · have hw_mem := List.mem_of_find?_eq_some hfind
      have hw_email : w.email = u.email := by simpa using List.find?_some hfind
      have hwu : w = u := List.inj_on_of_nodup_map hwf.2 hw_mem hu_mem hw_email
      rw [hwu] at hfind
      exact hfind
  have hge : get_by_email (deactivated_db db uid u) u.email
      = some { u with is_active := false } := by
    have e1 : get_by_email (deactivated_db db uid u) u.email
        = (db.users.map (fun v =>
            if v.id == uid then { u with is_active := false } else v)).find?
            (fun v => v.email == u.email) := rfl
    rw [e1, find?_map_comm db.users _ _ hpe, hmail]
    simp [huid']
  unfold authenticate_user
  rw [hge]
  simp

/-- C7: soft delete. For an existing account id (over a store satisfying the
schema's uniqueness constraints), `deactivate_user` succeeds returning
`true`; afterwards `get_by_id` still returns the account with its active
flag false; `authenticate_user` with that account's email returns `none` for
every password and every verifier — even one accepting the correct
password — and deactivating the now-inactive account again still succeeds
and returns `true` (idempotence). -/
theorem C7_soft_delete (verify : String → String → Bool) (db : DB) (uid : Nat)
    (u : User) (hwf : usersWF db) (hu : get_by_id db uid = some u) :
    deactivate_user db uid = .ok (true, deactivated_db db uid u) ∧
    get_by_id (deactivated_db db uid u) uid =
      some { u with is_active := false } ∧
    (∀ pw, authenticate_user verify (deactivated_db db uid u) u.email pw =
      none) ∧
    deactivate_user (deactivated_db db uid u) uid =
      .ok (true, deactivated_db (deactivated_db db uid u) uid
        { u with is_active := false }) :=
  ⟨deactivate_user_ok db uid u hu,
   deactivated_get_by_id db uid u hu,
   fun pw => deactivated_authenticate_none verify db uid u hwf hu pw,
   deactivate_user_ok (deactivated_db db uid u) uid { u with is_active := false }
     (deactivated_get_by_id db uid u hu)⟩

/-- Account for the C7 witness. -/
def uC7 : User :=
  { id := 1, email := "carol@x.com", full_name := "C", hashed_password := "h1",
    is_active := true, is_superuser := false }

/-- Store for the C7 witness: one active account. -/
def dbC7 : DB :=
  { users := [uC7], sessions := [], audits := [],
    next_user_id := 2, next_session_id := 1 }

/-- Witness for C7 at a concrete store: deactivation succeeds with `true`,
the account is still readable by id with `is_active = false`, authentication
fails even under a verifier accepting every password, and a second
deactivation still succeeds with `true`. -/
theorem C7_soft_delete_witness :
    deactivate_user dbC7 1 = .ok (true, deactivated_db dbC7 1 uC7) ∧
    get_by_id (deactivated_db dbC7 1 uC7) 1 =
      some { uC7 with is_active := false } ∧
    authenticate_user (fun _ _ => true) (deactivated_db dbC7 1 uC7)
      uC7.email "any-password" = none ∧
    deactivate_user (deactivated_db dbC7 1 uC7) 1 =
      .ok (true, deactivated_db (deactivated_db dbC7 1 uC7) 1
        { uC7 with is_active := false }) := by
  obtain ⟨h1, h2, h3, h4⟩ :=
    C7_soft_delete (fun _ _ => true) dbC7 1 uC7 (by decide) (by decide)
  exact ⟨h1, h2, h3 "any-password", h4⟩
